import Mathlib

/-!
Verification of the voice-call appointment-booking agent.

Shallow embedding of the core logic of the repository:
- `models.py`   : `ServiceType`, `UserData`, `Worker`
- `database.py` : `WorkersTable` (seed worker directory and its two queries)
- `agent.py`    : `VoiceAgent` capability handlers (`update_user_info`,
  `update_reason_of_call`, `tools`, `build_set_appointment_tool` /
  `set_appointment_time`)

The Workforce Directory is global shared state read by `WorkersTable`'s
static queries; it is embedded by explicit state passing: every query takes
the current directory contents (`db : List Worker`) as an argument, and the
process-wide seed produced by `WorkersTable._get_workers` is the constant
`WorkersTable.getWorkers`.
-/

deriving instance DecidableEq for Except

namespace Agent

/-- `models.ServiceType`: closed enumeration of bookable service categories,
in declaration order PLUMBING, PEST_CONTROL, ROOFING_ISSUES. -/
inductive ServiceType where
  | PLUMBING
  | PEST_CONTROL
  | ROOFING_ISSUES
deriving DecidableEq, Repr

/-- `ServiceType.value`: the display string of each enum member. -/
def ServiceType.value : ServiceType → String
  | .PLUMBING => "Plumbing"
  | .PEST_CONTROL => "Pest Control"
  | .ROOFING_ISSUES => "Roofing Issues"

/-- Iteration order of `for service in ServiceType` (declaration order). -/
def serviceTypes : List ServiceType :=
  [.PLUMBING, .PEST_CONTROL, .ROOFING_ISSUES]

/-- `datetime.date(year, month, day)`. -/
structure Date where
  year : Nat
  month : Nat
  day : Nat
deriving DecidableEq, Repr

/-- `datetime.time(hour, minute)`. -/
structure Time where
  hour : Nat
  minute : Nat
deriving DecidableEq, Repr

/-- A slot is the `(date, time)` tuple used throughout `database.py`. -/
abbrev Slot := Date × Time

/-- Python tuple comparison `(s[0], s[1]) <= (t[0], t[1])`: lexicographic on
(year, month, day, hour, minute).  This is the key order used by
`sorted(slots, key=lambda s: (s[0], s[1]))`. -/
def slotLE (a b : Slot) : Bool :=
  Nat.blt a.1.year b.1.year || (a.1.year == b.1.year &&
    (Nat.blt a.1.month b.1.month || (a.1.month == b.1.month &&
      (Nat.blt a.1.day b.1.day || (a.1.day == b.1.day &&
        (Nat.blt a.2.hour b.2.hour || (a.2.hour == b.2.hour &&
          Nat.ble a.2.minute b.2.minute)))))))

/-- The `(date, time)` key order as a relation, for sorting. -/
def slotLe (a b : Slot) : Prop := slotLE a b = true

instance : DecidableRel slotLe := fun a b => instDecidableEqBool (slotLE a b) true

/-- `models.Worker`: id, name, fixed skills, ordered list of free slots. -/
structure Worker where
  worker_id : Nat
  name : String
  skills : List ServiceType
  availabilities : List Slot
deriving DecidableEq, Repr

/-- `models.UserData`: the per-call Customer Record.  All fields start unset.
`reason_of_call` holds the raw string assigned by `set_reason_of_call`
(the Python code stores the input text, whose value is always the display
string of the resolved category). -/
structure UserData where
  name : Option String := none
  phone_number : Option String := none
  address : Option String := none
  postal_code : Option String := none
  reason_of_call : Option String := none
  appointment_time : Option String := none
deriving DecidableEq, Repr

/-- `UserData.validate_reason_of_call`: membership of `reason` in the display
values. -/
def UserData.validate_reason_of_call (_u : UserData) (reason : String) : Bool :=
  serviceTypes.any (fun service => service.value == reason)

/-- `UserData.set_reason_of_call`: scans `ServiceType` in declaration order;
on the first member whose `value` equals `reason` it stores `reason` in
`reason_of_call` and returns the member; otherwise returns `None` leaving the
record untouched.  Embedded as a pure function returning (result, new record). -/
def UserData.set_reason_of_call (u : UserData) (reason : String) :
    Option ServiceType × UserData :=
  match serviceTypes.find? (fun service => service.value == reason) with
  | some service => (some service, { u with reason_of_call := some reason })
  | none => (none, u)

namespace WorkersTable

/-- `WorkersTable._get_workers`: the fake static DB seed. -/
def getWorkers : List Worker :=
  [ { worker_id := 0, name := "Masih",
      skills := [.PLUMBING, .PEST_CONTROL],
      availabilities :=
        [ (⟨2025, 8, 21⟩, ⟨16, 0⟩), (⟨2025, 8, 21⟩, ⟨17, 0⟩),
          (⟨2025, 8, 22⟩, ⟨10, 0⟩), (⟨2025, 8, 22⟩, ⟨12, 0⟩) ] },
    { worker_id := 1, name := "Ali",
      skills := [.PLUMBING, .ROOFING_ISSUES],
      availabilities :=
        [ (⟨2025, 8, 22⟩, ⟨12, 0⟩), (⟨2025, 8, 23⟩, ⟨18, 0⟩),
          (⟨2025, 8, 23⟩, ⟨11, 0⟩) ] } ]

/-- `WorkersTable.get_next_free_worker`: first worker (in registration order)
whose free-list contains the slot; `None` otherwise.  The directory contents
are passed explicitly. -/
def get_next_free_worker (db : List Worker) (appointment_time : Slot) :
    Option Worker :=
  db.find? (fun worker => decide (appointment_time ∈ worker.availabilities))

/-- `WorkersTable.get_all_availabilities`: the set of all slots of workers
having the skill (a Python set comprehension deduplicates shared slots),
sorted ascending by the `(date, time)` key.  Python's `sorted` builtin is
embedded as insertion sort: on a duplicate-free input and a total order both
produce the unique ascending enumeration of the set. -/
def get_all_availabilities (db : List Worker) (skill : ServiceType) :
    List Slot :=
  List.insertionSort slotLe
    (((db.filter (fun w => decide (skill ∈ w.skills))).flatMap
        Worker.availabilities).dedup)

end WorkersTable

/-- Python truthiness of an `Optional[str]`: `None` and `""` are falsy. -/
def pyTruthy : Option String → Bool
  | none => false
  | some s => s != ""

/-- Render of `strftime` zero-padded two-digit fields. -/
def pad2 (n : Nat) : String :=
  if n < 10 then "0" ++ toString n else toString n

/-- Render of `strftime('%Y')` (zero-padded to four digits). -/
def pad4 (n : Nat) : String :=
  if n < 10 then "000" ++ toString n
  else if n < 100 then "00" ++ toString n
  else if n < 1000 then "0" ++ toString n
  else toString n

/-- `f"{slot[0].strftime('%Y-%m-%d')} at {slot[1].strftime('%H:%M')}"`. -/
def slotString (slot : Slot) : String :=
  pad4 slot.1.year ++ "-" ++ pad2 slot.1.month ++ "-" ++ pad2 slot.1.day ++
    " at " ++ pad2 slot.2.hour ++ ":" ++ pad2 slot.2.minute

/-- `VoiceAgent.update_user_info`: the early return `"No fields provided to
update."` fires when `any([name, number, address, postal_code])` is falsy
(Python truthiness: `None` and `""` both count as absent); otherwise each
argument that `is not None` overwrites its field and is appended to the
`updated` log, and the reply is
`f"Updated: {', '.join(f'{label} to {value}' ...) if updated else 'Nothing'}"`. -/
def update_user_info (name number address postal_code : Option String)
    (userdata : UserData) : String × UserData :=
  if pyTruthy name || pyTruthy number || pyTruthy address ||
      pyTruthy postal_code then
    let acc1 : UserData × List (String × String) :=
      match name with
      | some v => ({ userdata with name := some v }, [("name", v)])
      | none => (userdata, [])
    let acc2 : UserData × List (String × String) :=
      match number with
      | some v => ({ acc1.1 with phone_number := some v },
                   acc1.2 ++ [("phone number", v)])
      | none => acc1
    let acc3 : UserData × List (String × String) :=
      match address with
      | some v => ({ acc2.1 with address := some v },
                   acc2.2 ++ [("address", v)])
      | none => acc2
    let acc4 : UserData × List (String × String) :=
      match postal_code with
      | some v => ({ acc3.1 with postal_code := some v },
                   acc3.2 ++ [("postal code", v)])
      | none => acc3
    ("Updated: " ++
      (if acc4.2.isEmpty then "Nothing"
       else String.intercalate ", "
              (acc4.2.map (fun p => p.1 ++ " to " ++ p.2))),
     acc4.1)
  else
    ("No fields provided to update.", userdata)

/-- `VoiceAgent.update_reason_of_call`: delegates to
`userdata.set_reason_of_call`; on success also records the category in
`self.service_type` (the agent field that unlocks the booking tool) and
replies with the confirmation; on failure replies with the message listing
every valid display value, comma-joined, in declaration order.
Result: (reply, new `self.service_type`, new userdata). -/
def update_reason_of_call (reason : String) (service_type : Option ServiceType)
    (userdata : UserData) : String × Option ServiceType × UserData :=
  match userdata.set_reason_of_call reason with
  | (some st, u') =>
      ("The reason for call is updated to " ++ reason ++
         ". Now I can help you book an appointment. What time would you prefer?",
       some st, u')
  | (none, u') =>
      ("Invalid reason. Please choose one of: " ++
         String.intercalate ", " (serviceTypes.map ServiceType.value),
       service_type, u')

/-- Names of the function tools of `VoiceAgent`. -/
inductive ToolName where
  | update_user_info
  | convince_user
  | update_reason_of_call
  | get_available_times
  | final_double_check
  | set_appointment_time
deriving DecidableEq, Repr

/-- `VoiceAgent.tools`: the base tools, plus the booking tool exactly when
`self.service_type` is truthy (an enum member is always truthy in Python). -/
def VoiceAgent.tools (service_type : Option ServiceType) : List ToolName :=
  let base_tools : List ToolName :=
    [.update_user_info, .convince_user, .update_reason_of_call,
     .get_available_times, .final_double_check]
  match service_type with
  | some _ => base_tools ++ [.set_appointment_time]
  | none => base_tools

/-- The two `ToolError`s raised by `set_appointment_time`, tagged by raise
site (`message` below renders the exact source strings). -/
inductive BookingError where
  | SlotNotFound (appointment_time : String)
  | NoWorkerAvailable (appointment_time : String)
deriving DecidableEq, Repr

/-- The `ToolError` message strings of `set_appointment_time`. -/
def BookingError.message : BookingError → String
  | .SlotNotFound t => "error: " ++ t ++ " was not found in available times."
  | .NoWorkerAvailable t => "error: No worker available for " ++ t

/-- The closure returned by `VoiceAgent.build_set_appointment_tool`: it
captures the service type and the `available_times` list computed when the
tool was built. -/
structure SetAppointmentTool where
  service_type : ServiceType
  available_times : List Slot
deriving DecidableEq, Repr

/-- `VoiceAgent.build_set_appointment_tool`: computes
`WorkersTable.get_all_availabilities(service_type)` against the directory
contents at construction time and captures it in the returned tool. -/
def build_set_appointment_tool (db : List Worker) (service_type : ServiceType) :
    SetAppointmentTool :=
  { service_type := service_type,
    available_times := WorkersTable.get_all_availabilities db service_type }

/-- The inner `set_appointment_time` handler: scans the captured
`available_times` for the slot whose rendered string equals the input
(`SlotNotFound` if none), then queries `WorkersTable.get_next_free_worker`
against the directory contents at invocation time (`NoWorkerAvailable` if
none); on success stores the input string in `userdata.appointment_time` and
returns the confirmation.  `db` is the directory state when the handler runs;
the matching list is the tool's construction-time snapshot. -/
def set_appointment_time (tool : SetAppointmentTool) (db : List Worker)
    (appointment_time : String) (userdata : UserData) :
    Except BookingError (String × UserData) :=
  match tool.available_times.find?
      (fun slot => slotString slot == appointment_time) with
  | none => .error (.SlotNotFound appointment_time)
  | some selected_slot =>
      match WorkersTable.get_next_free_worker db selected_slot with
      | none => .error (.NoWorkerAvailable appointment_time)
      | some worker =>
          .ok ("Perfect! I've scheduled your " ++ tool.service_type.value ++
                 " appointment for " ++ appointment_time ++
                 ". Your assigned worker will be " ++ worker.name ++ ".",
               { userdata with appointment_time := some appointment_time })

/-- The mutable world a capability invocation can touch: the global Workforce
Directory and the session's Customer Record. -/
structure WorldState where
  workers : List Worker
  userdata : UserData
deriving DecidableEq, Repr

/-- `set_appointment_time` as a transformer of the whole mutable world: it
reads `w.workers` and writes only `w.userdata` (the source contains no write
to the directory). -/
def set_appointment_time_world (tool : SetAppointmentTool)
    (appointment_time : String) (w : WorldState) :
    Except BookingError (String × WorldState) :=
  match set_appointment_time tool w.workers appointment_time w.userdata with
  | .ok (msg, u') => .ok (msg, { w with userdata := u' })
  | .error e => .error e

/-- One capability invocation a session's decision-maker can select. -/
inductive AgentOp where
  | updateUserInfo (name number address postal_code : Option String)
  | convinceUser
  | updateReasonOfCall (reason : String)
  | getAvailableTimes
  | finalDoubleCheck
  | setAppointmentTime (appointment_time : String)
deriving DecidableEq, Repr

/-- The per-session mutable state of `VoiceAgent`: the agent's
`self.service_type` field and the session's `userdata`. -/
structure SessionState where
  service_type : Option ServiceType := none
  userdata : UserData := {}
deriving DecidableEq, Repr

/-- Effect of one capability invocation on the session state.  Handlers that
only read state (`convince_user`, `get_available_times`,
`final_double_check`) leave it unchanged; the booking tool exists only when
`service_type` is set (it is built from the current directory contents, as
`VoiceAgent.tools` does on access) and a raised `ToolError` leaves the state
unchanged. -/
def stepOp (db : List Worker) (st : SessionState) : AgentOp → SessionState
  | .updateUserInfo name number address postal_code =>
      { st with userdata :=
          (update_user_info name number address postal_code st.userdata).2 }
  | .convinceUser => st
  | .updateReasonOfCall reason =>
      let r := update_reason_of_call reason st.service_type st.userdata
      { service_type := r.2.1, userdata := r.2.2 }
  | .getAvailableTimes => st
  | .finalDoubleCheck => st
  | .setAppointmentTime t =>
      match st.service_type with
      | none => st
      | some c =>
          match set_appointment_time (build_set_appointment_tool db c) db t
              st.userdata with
          | .ok (_, u') => { st with userdata := u' }
          | .error _ => st

/-- A session: the ops selected so far, applied to the fresh state. -/
def runOps (db : List Worker) (ops : List AgentOp) : SessionState :=
  ops.foldl (stepOp db) {}

/-- Whether an op is a `update_reason_of_call` call that succeeds (success
depends only on the argument, not on the state). -/
def opSetsCategory : AgentOp → Bool
  | .updateReasonOfCall reason =>
      serviceTypes.any (fun service => service.value == reason)
  | _ => false

/-- Modelled from the spec (§4.2 `update`, for comparison with
`update_user_info`): the `(label, value)` entries of the non-null arguments,
in field order. -/
def updatedEntries (name number address postal_code : Option String) :
    List (String × String) :=
  (match name with | some v => [("name", v)] | none => []) ++
  (match number with | some v => [("phone number", v)] | none => []) ++
  (match address with | some v => [("address", v)] | none => []) ++
  (match postal_code with | some v => [("postal code", v)] | none => [])

/-- Modelled from the spec (§4.2 `update`, for comparison with
`update_user_info`): overwrite each field whose argument is non-null. -/
def applyUpdates (name number address postal_code : Option String)
    (u : UserData) : UserData :=
  { u with
    name := match name with | some v => some v | none => u.name,
    phone_number := match number with | some v => some v | none => u.phone_number,
    address := match address with | some v => some v | none => u.address,
    postal_code :=
      match postal_code with | some v => some v | none => u.postal_code }

/-- A directory state used to exercise staleness: the seed plus one later
registration with a fresh Plumbing slot. -/
def dbGrown : List Worker :=
  WorkersTable.getWorkers ++
    [ { worker_id := 2, name := "Dana", skills := [.PLUMBING],
        availabilities := [ (⟨2025, 8, 24⟩, ⟨9, 0⟩) ] } ]

end Agent

namespace Agent

/-! ### Helper lemmas -/

/-- Unfolding of the Boolean key comparison into arithmetic. -/
theorem slotLe_iff (a b : Slot) :
    slotLe a b ↔
      (a.1.year < b.1.year ∨ (a.1.year = b.1.year ∧
        (a.1.month < b.1.month ∨ (a.1.month = b.1.month ∧
          (a.1.day < b.1.day ∨ (a.1.day = b.1.day ∧
            (a.2.hour < b.2.hour ∨ (a.2.hour = b.2.hour ∧
              a.2.minute ≤ b.2.minute)))))))) := by
  simp [slotLe, slotLE, Bool.or_eq_true, Bool.and_eq_true, Nat.blt_eq,
    Nat.ble_eq, beq_iff_eq]

instance : IsTotal Slot slotLe :=
  ⟨by intro a b; rw [slotLe_iff, slotLe_iff]; omega⟩

instance : IsTrans Slot slotLe :=
  ⟨by intro a b c hab hbc; rw [slotLe_iff] at *; omega⟩

/-- A slot is listed for a skill iff some registered worker has the skill and
the slot in its free-list. -/
theorem mem_get_all_availabilities (db : List Worker) (c : ServiceType)
    (s : Slot) :
    s ∈ WorkersTable.get_all_availabilities db c ↔
      ∃ w ∈ db, c ∈ w.skills ∧ s ∈ w.availabilities := by
  unfold WorkersTable.get_all_availabilities
  rw [List.Perm.mem_iff (List.perm_insertionSort _ _)]
  simp [List.mem_dedup, List.mem_flatMap, List.mem_filter]
  constructor
  · rintro ⟨w, ⟨hw, hc⟩, hs⟩
    exact ⟨w, hw, hc, hs⟩
  · rintro ⟨w, hw, hc, hs⟩
    exact ⟨w, ⟨hw, hc⟩, hs⟩

/-! ### C4 -/

/-- C4 counterexample: the process-wide seed is not the two-plus-one-slot
directory the claim describes — `allAvailableSlots(Plumbing)` over the seed
is not the three-slot list `[2025-08-21 16:00, 2025-08-21 17:00,
2025-08-22 12:00]`. -/
theorem C4_counterexample :
    WorkersTable.get_all_availabilities WorkersTable.getWorkers .PLUMBING ≠
      [ (⟨2025, 8, 21⟩, ⟨16, 0⟩), (⟨2025, 8, 21⟩, ⟨17, 0⟩),
        (⟨2025, 8, 22⟩, ⟨12, 0⟩) ] := by
  decide

/-- C4 (amended): with the process-wide seed directory (worker "Masih"
skilled in Plumbing and PestControl, free at 2025-08-21 16:00 and 17:00 and
2025-08-22 10:00 and 12:00; worker "Ali" skilled in Plumbing and
RoofingIssues, free at 2025-08-22 12:00 and 2025-08-23 18:00 and 11:00),
`allAvailableSlots(Plumbing)` returns exactly the six-slot sequence below
(the shared 2025-08-22 12:00 slot listed once). -/
theorem C4_all_available_slots_plumbing :
    WorkersTable.get_all_availabilities WorkersTable.getWorkers .PLUMBING =
      [ (⟨2025, 8, 21⟩, ⟨16, 0⟩), (⟨2025, 8, 21⟩, ⟨17, 0⟩),
        (⟨2025, 8, 22⟩, ⟨10, 0⟩), (⟨2025, 8, 22⟩, ⟨12, 0⟩),
        (⟨2025, 8, 23⟩, ⟨11, 0⟩), (⟨2025, 8, 23⟩, ⟨18, 0⟩) ] := by
  decide

/-! ### C8 -/

/-- C8: for every directory contents and every category,
`allAvailableSlots(category)` contains no duplicate slots (even when two
workers share a slot) and is sorted ascending by the lexicographic
`(date, time)` key `slotLe`. -/
theorem C8_all_availabilities_nodup_sorted (db : List Worker)
    (c : ServiceType) :
    (WorkersTable.get_all_availabilities db c).Nodup ∧
    (WorkersTable.get_all_availabilities db c).Sorted slotLe := by
  refine ⟨?_, ?_⟩
  · exact ((List.perm_insertionSort _ _).nodup_iff).mpr (List.nodup_dedup _)
  · exact List.sorted_insertionSort _ _

/-! ### C10 -/

/-- C10: for every directory contents and category, every slot listed by
`allAvailableSlots(category)` has a backing worker
(`firstFreeWorker` is not `none`); consequently, when the directory is
unchanged between tool construction and invocation (as with the fixed seed),
the `NoWorkerAvailable` branch of the booking handler is unreachable. -/
theorem C10_no_worker_available_unreachable (db : List Worker)
    (c : ServiceType) :
    (∀ s ∈ WorkersTable.get_all_availabilities db c,
        WorkersTable.get_next_free_worker db s ≠ none) ∧
    (∀ (t : String) (u : UserData) (e : String),
        set_appointment_time (build_set_appointment_tool db c) db t u ≠
          .error (.NoWorkerAvailable e)) := by
  have key : ∀ s ∈ WorkersTable.get_all_availabilities db c,
      WorkersTable.get_next_free_worker db s ≠ none := by
    intro s hs hnone
    obtain ⟨w, hw, _, hsw⟩ := (mem_get_all_availabilities db c s).mp hs
    have := List.find?_eq_none.mp hnone w hw
    simp [hsw] at this
  refine ⟨key, ?_⟩
  intro t u e h
  unfold set_appointment_time at h
  cases hf : (build_set_appointment_tool db c).available_times.find?
      (fun slot => slotString slot == t) with
  | none => rw [hf] at h; simp at h
  | some slot =>
      rw [hf] at h
      have hmem : slot ∈ WorkersTable.get_all_availabilities db c :=
        List.mem_of_find?_eq_some hf
      cases hw : WorkersTable.get_next_free_worker db slot with
      | none => exact key slot hmem hw
      | some worker => simp [hw] at h

/-- Witness for C10: over the seed directory with Plumbing, the listed slot
2025-08-21 16:00 has a backing worker and the NoWorkerAvailable error never
surfaces for that invocation. -/
theorem C10_witness :
    WorkersTable.get_next_free_worker WorkersTable.getWorkers
        (⟨2025, 8, 21⟩, ⟨16, 0⟩) ≠ none ∧
    set_appointment_time
        (build_set_appointment_tool WorkersTable.getWorkers .PLUMBING)
        WorkersTable.getWorkers "2025-08-21 at 16:00" {} ≠
      .error (.NoWorkerAvailable "2025-08-21 at 16:00") :=
  ⟨(C10_no_worker_available_unreachable WorkersTable.getWorkers .PLUMBING).1
      (⟨2025, 8, 21⟩, ⟨16, 0⟩) (by decide),
   (C10_no_worker_available_unreachable WorkersTable.getWorkers .PLUMBING).2
      "2025-08-21 at 16:00" {} "2025-08-21 at 16:00"⟩

/-! ### C1 -/

/-- C1 counterexample: when the directory grows between tool construction
(over the seed) and invocation (over `dbGrown`), the handler rejects the new
slot's display string as SlotNotFound even though it is a member of
`allAvailableSlots(Plumbing)` recomputed at invocation time — the matching is
against the construction-time snapshot, not the fresh list. -/
theorem C1_counterexample :
    set_appointment_time
        (build_set_appointment_tool WorkersTable.getWorkers .PLUMBING)
        dbGrown "2025-08-24 at 09:00" {} =
      .error (.SlotNotFound "2025-08-24 at 09:00") ∧
    "2025-08-24 at 09:00" ∈
      (WorkersTable.get_all_availabilities dbGrown .PLUMBING).map slotString := by
  decide

/-- C1 (amended): for every construction-time directory state, invocation-time
directory state, category and chosen display string, the booking handler
matches the input against `allAvailableSlots(category)` as computed when the
capability was constructed (the captured snapshot): it raises SlotNotFound
exactly when the input is not the display string of a snapshot slot.  (In
this program the directory is a fixed seed, so the snapshot always coincides
with the fresh computation.) -/
theorem C1_booking_matches_construction_snapshot (dbB dbC : List Worker)
    (c : ServiceType) (t : String) (u : UserData) :
    set_appointment_time (build_set_appointment_tool dbB c) dbC t u =
        .error (.SlotNotFound t) ↔
      t ∉ (WorkersTable.get_all_availabilities dbB c).map slotString := by
  have hat : (build_set_appointment_tool dbB c).available_times =
      WorkersTable.get_all_availabilities dbB c := rfl
  unfold set_appointment_time
  rw [hat]
  cases hf : (WorkersTable.get_all_availabilities dbB c).find?
      (fun slot => slotString slot == t) with
  | none =>
      have hnot : t ∉ (WorkersTable.get_all_availabilities dbB c).map slotString := by
        intro hmem
        obtain ⟨s, hs, hst⟩ := List.mem_map.mp hmem
        have hns := List.find?_eq_none.mp hf s hs
        simp [hst] at hns
      simp [hf, hnot]
  | some slot =>
      have hmem : t ∈ (WorkersTable.get_all_availabilities dbB c).map slotString := by
        refine List.mem_map.mpr ⟨slot, List.mem_of_find?_eq_some hf, ?_⟩
        simpa using List.find?_some hf
      simp only [hf]
      constructor
      · intro h
        cases hw : WorkersTable.get_next_free_worker dbC slot with
        | none => rw [hw] at h; simp at h
        | some worker => rw [hw] at h; simp at h
      · intro h; exact absurd hmem h

/-- Witness for C1: a string matching no snapshot slot is rejected as
SlotNotFound over the seed directory. -/
theorem C1_witness :
    set_appointment_time
        (build_set_appointment_tool WorkersTable.getWorkers .PLUMBING)
        WorkersTable.getWorkers "tomorrow" {} =
      .error (.SlotNotFound "tomorrow") :=
  (C1_booking_matches_construction_snapshot WorkersTable.getWorkers
      WorkersTable.getWorkers .PLUMBING "tomorrow" {}).mpr (by decide)

/-! ### C2 -/

/-- C2 counterexample: a successful booking of 2025-08-21 16:00 assigns
worker "Masih" (named in the confirmation), yet the appointment stored in the
Customer Record is the bare slot display string — the assigned worker's name
does not occur in it, so the stored appointment is not the slot combined with
the worker's name. -/
theorem C2_counterexample :
    set_appointment_time
        (build_set_appointment_tool WorkersTable.getWorkers .PLUMBING)
        WorkersTable.getWorkers "2025-08-21 at 16:00" {} =
      .ok ("Perfect! I've scheduled your Plumbing appointment for " ++
             "2025-08-21 at 16:00. Your assigned worker will be Masih.",
           { appointment_time := some "2025-08-21 at 16:00" }) ∧
    ¬ ("Masih".toList <:+: "2025-08-21 at 16:00".toList) := by
  decide

/-- C2 (amended): on every successful booking, the appointment stored in the
Customer Record is the slot display string alone (the worker's name is not
stored), and the returned confirmation string names the service, the slot,
and the assigned worker. -/
theorem C2_booking_stores_slot_and_confirmation (dbB dbC : List Worker)
    (c : ServiceType) (t : String) (u : UserData) (msg : String)
    (u' : UserData)
    (h : set_appointment_time (build_set_appointment_tool dbB c) dbC t u =
      .ok (msg, u')) :
    u' = { u with appointment_time := some t } ∧
    ∃ worker slot,
      (WorkersTable.get_all_availabilities dbB c).find?
          (fun s => slotString s == t) = some slot ∧
      WorkersTable.get_next_free_worker dbC slot = some worker ∧
      msg = "Perfect! I've scheduled your " ++ c.value ++
              " appointment for " ++ t ++
              ". Your assigned worker will be " ++ worker.name ++ "." := by
  have hat : (build_set_appointment_tool dbB c).available_times =
      WorkersTable.get_all_availabilities dbB c := rfl
  unfold set_appointment_time at h
  rw [hat] at h
  cases hf : (WorkersTable.get_all_availabilities dbB c).find?
      (fun slot => slotString slot == t) with
  | none => rw [hf] at h; simp at h
  | some slot =>
      rw [hf] at h
      cases hw : WorkersTable.get_next_free_worker dbC slot with
      | none => simp [hw] at h
      | some worker =>
          simp only [hw, Except.ok.injEq, Prod.mk.injEq] at h
          obtain ⟨hmsg, hu⟩ := h
          exact ⟨hu.symm, worker, slot, rfl, hw, hmsg.symm⟩

/-- Witness for C2: the concrete booking of 2025-08-21 16:00 over the seed
directory, with worker "Masih". -/
theorem C2_witness :
    ({ appointment_time := some "2025-08-21 at 16:00" } : UserData) =
      { ({} : UserData) with
          appointment_time := some "2025-08-21 at 16:00" } ∧
    ∃ worker slot,
      (WorkersTable.get_all_availabilities WorkersTable.getWorkers
          .PLUMBING).find?
          (fun s => slotString s == "2025-08-21 at 16:00") = some slot ∧
      WorkersTable.get_next_free_worker WorkersTable.getWorkers slot =
        some worker ∧
      ("Perfect! I've scheduled your Plumbing appointment for " ++
         "2025-08-21 at 16:00. Your assigned worker will be Masih.") =
        "Perfect! I've scheduled your " ++ ServiceType.PLUMBING.value ++
          " appointment for " ++ "2025-08-21 at 16:00" ++
          ". Your assigned worker will be " ++ worker.name ++ "." :=
  C2_booking_stores_slot_and_confirmation WorkersTable.getWorkers
    WorkersTable.getWorkers .PLUMBING "2025-08-21 at 16:00" {}
    ("Perfect! I've scheduled your Plumbing appointment for " ++
      "2025-08-21 at 16:00. Your assigned worker will be Masih.")
    { appointment_time := some "2025-08-21 at 16:00" } (by decide)

/-! ### C3 and C6: category resolution -/

/-- The display strings distinguish the category members. -/
theorem ServiceType.value_inj {a b : ServiceType} (h : a.value = b.value) :
    a = b := by
  cases a <;> cases b <;> first | rfl | exact absurd h (by decide)

/-- Every category member is scanned by the `for service in ServiceType`
loop. -/
theorem mem_serviceTypes (c : ServiceType) : c ∈ serviceTypes := by
  cases c <;> simp [serviceTypes]

/-- `set_reason_of_call` returns a member exactly on an exact, case-sensitive
match of the display string. -/
theorem set_reason_of_call_fst (u : UserData) (t : String) (c : ServiceType) :
    (u.set_reason_of_call t).1 = some c ↔ c.value = t := by
  unfold UserData.set_reason_of_call
  cases hf : serviceTypes.find? (fun service => service.value == t) with
  | none =>
      simp only [Option.some.injEq]
      constructor
      · intro h; exact absurd h (by simp)
      · intro h
        have := List.find?_eq_none.mp hf c (mem_serviceTypes c)
        simp [h] at this
  | some s =>
      have hs : s.value = t := by simpa using List.find?_some hf
      simp only [Option.some.injEq]
      constructor
      · intro h; rw [← h]; exact hs
      · intro h; exact ServiceType.value_inj (hs.trans h.symm)

/-- On a failed match `set_reason_of_call` is the identity on the record and
returns `None`. -/
theorem set_reason_of_call_of_no_match (u : UserData) (t : String)
    (h : ∀ c : ServiceType, c.value ≠ t) :
    u.set_reason_of_call t = (none, u) := by
  unfold UserData.set_reason_of_call
  cases hf : serviceTypes.find? (fun service => service.value == t) with
  | none => rfl
  | some s =>
      have hs : s.value = t := by simpa using List.find?_some hf
      exact absurd hs (h s)

/-- On a successful match the record update is exactly the
`reason_of_call` field receiving the input text. -/
theorem set_reason_of_call_snd_of_some (u : UserData) (t : String)
    (h : (u.set_reason_of_call t).1 ≠ none) :
    (u.set_reason_of_call t).2 = { u with reason_of_call := some t } := by
  unfold UserData.set_reason_of_call at *
  cases hf : serviceTypes.find? (fun service => service.value == t) with
  | none => rw [hf] at h; simp at h
  | some s => rfl

/-- C3: for every record and input text, `setServiceCategory` returns the
category `c` iff the text equals `c`'s display string exactly
(case-sensitive, no trimming); and on success the record update is exactly
the service-category field receiving the resolved category's display string
(equal to the input text), which is returned. -/
theorem C3_set_service_category_exact (u : UserData) (t : String) :
    (∀ c : ServiceType, (u.set_reason_of_call t).1 = some c ↔ c.value = t) ∧
    ((u.set_reason_of_call t).1 ≠ none →
      (u.set_reason_of_call t).2 = { u with reason_of_call := some t }) :=
  ⟨fun c => set_reason_of_call_fst u t c,
   fun h => set_reason_of_call_snd_of_some u t h⟩

/-- Witness for C3 at the empty record and input "Plumbing". -/
theorem C3_witness :
    (UserData.set_reason_of_call {} "Plumbing").1 = some .PLUMBING ∧
    (UserData.set_reason_of_call {} "Plumbing").2 =
      { reason_of_call := some "Plumbing" } := by
  have h := C3_set_service_category_exact {} "Plumbing"
  have h1 : (UserData.set_reason_of_call {} "Plumbing").1 = some .PLUMBING :=
    (h.1 .PLUMBING).mpr rfl
  exact ⟨h1, h.2 (by rw [h1]; simp)⟩

/-- C6: for every input text matching no category, `setServiceCategory`
leaves the Customer Record unchanged and returns none, and the capability's
failure reply is the message enumerating exactly the valid display values
{Plumbing, Pest Control, Roofing Issues}, comma-joined in declaration order
(the agent's `service_type` is also left unchanged). -/
theorem C6_invalid_category (t : String) (st : Option ServiceType)
    (u : UserData) (h : ∀ c : ServiceType, c.value ≠ t) :
    u.set_reason_of_call t = (none, u) ∧
    update_reason_of_call t st u =
      ("Invalid reason. Please choose one of: " ++
         String.intercalate ", " (serviceTypes.map ServiceType.value),
       st, u) ∧
    String.intercalate ", " (serviceTypes.map ServiceType.value) =
      "Plumbing, Pest Control, Roofing Issues" := by
  have h0 := set_reason_of_call_of_no_match u t h
  refine ⟨h0, ?_, by decide⟩
  unfold update_reason_of_call
  rw [h0]

/-- Witness for C6 at the unmatched input "Gardening". -/
theorem C6_witness :
    UserData.set_reason_of_call {} "Gardening" = (none, {}) ∧
    update_reason_of_call "Gardening" none {} =
      ("Invalid reason. Please choose one of: " ++
         String.intercalate ", " (serviceTypes.map ServiceType.value),
       none, {}) ∧
    String.intercalate ", " (serviceTypes.map ServiceType.value) =
      "Plumbing, Pest Control, Roofing Issues" :=
  C6_invalid_category "Gardening" none {}
    (by intro c; cases c <;> decide)

/-! ### C5 -/

/-- C5 counterexample: calling `updateContactInfo` with `name` the non-null
empty string (and the other three null) does not overwrite the name field —
the guard tests Python truthiness, so the call returns the
"No fields provided to update." result and leaves the record unchanged,
while the claim requires the non-null argument to overwrite the field. -/
theorem C5_counterexample :
    (some "" : Option String) ≠ none ∧
    update_user_info (some "") none none none {} =
      ("No fields provided to update.", {}) ∧
    (update_user_info (some "") none none none {}).2.name ≠ some "" := by
  decide

/-- C5 (amended): if all four arguments are null or empty strings (Python
falsy) the call returns the "No fields provided to update." result and
leaves the Customer Record unchanged; otherwise each non-null argument
(empty strings included) overwrites the corresponding record field and the
result is "Updated: " followed by exactly the fields that changed, joined as
"<label> to <value>" in field order. -/
theorem C5_update_user_info_characterized
    (name number address postal_code : Option String) (u : UserData) :
    update_user_info name number address postal_code u =
      if pyTruthy name || pyTruthy number || pyTruthy address ||
          pyTruthy postal_code then
        ("Updated: " ++ String.intercalate ", "
            ((updatedEntries name number address postal_code).map
              (fun p => p.1 ++ " to " ++ p.2)),
         applyUpdates name number address postal_code u)
      else ("No fields provided to update.", u) := by
  rcases name with _ | nv <;> rcases number with _ | mv <;>
    rcases address with _ | av <;> rcases postal_code with _ | pv <;>
    simp [update_user_info, updatedEntries, applyUpdates, pyTruthy]

/-! ### C7: the booking capability across a session -/

/-- When no display value matches, `set_reason_of_call` is a no-op. -/
theorem set_reason_of_call_of_any_false (u : UserData) (r : String)
    (h : serviceTypes.any (fun s => s.value == r) = false) :
    u.set_reason_of_call r = (none, u) := by
  apply set_reason_of_call_of_no_match
  intro c hc
  have := List.any_eq_false.mp h c (mem_serviceTypes c)
  simp [hc] at this

/-- When some display value matches, `set_reason_of_call` returns a member. -/
theorem set_reason_of_call_fst_isSome_of_any_true (u : UserData) (r : String)
    (h : serviceTypes.any (fun s => s.value == r) = true) :
    (u.set_reason_of_call r).1.isSome := by
  obtain ⟨c, hc, hpc⟩ := List.any_eq_true.mp h
  have : (u.set_reason_of_call r).1 = some c :=
    (set_reason_of_call_fst u r c).mpr (by simpa using hpc)
  simp [this]

/-- Any op other than a successful `update_reason_of_call` leaves the agent's
`service_type` untouched. -/
theorem stepOp_service_type_of_not_sets (db : List Worker)
    (st : SessionState) (op : AgentOp) (h : opSetsCategory op = false) :
    (stepOp db st op).service_type = st.service_type := by
  cases op with
  | updateUserInfo n m a p => rfl
  | convinceUser => rfl
  | getAvailableTimes => rfl
  | finalDoubleCheck => rfl
  | updateReasonOfCall r =>
      have h0 : st.userdata.set_reason_of_call r = (none, st.userdata) :=
        set_reason_of_call_of_any_false _ _ (by simpa [opSetsCategory] using h)
      simp [stepOp, update_reason_of_call, h0]
  | setAppointmentTime t =>
      simp only [stepOp]
      cases hst : st.service_type with
      | none => simp [hst]
      | some c =>
          cases hr : set_appointment_time (build_set_appointment_tool db c) db t
              st.userdata with
          | ok v => cases v with | mk a b => simp [hr]
          | error e => simp [hr, hst]

/-- A successful `update_reason_of_call` leaves `service_type` set. -/
theorem stepOp_isSome_of_sets (db : List Worker) (st : SessionState)
    (op : AgentOp) (h : opSetsCategory op = true) :
    (stepOp db st op).service_type.isSome := by
  cases op with
  | updateUserInfo n m a p => simp [opSetsCategory] at h
  | convinceUser => simp [opSetsCategory] at h
  | getAvailableTimes => simp [opSetsCategory] at h
  | finalDoubleCheck => simp [opSetsCategory] at h
  | setAppointmentTime t => simp [opSetsCategory] at h
  | updateReasonOfCall r =>
      have hs := set_reason_of_call_fst_isSome_of_any_true st.userdata r
        (by simpa [opSetsCategory] using h)
      cases hr : st.userdata.set_reason_of_call r with
      | mk fst snd =>
          cases fst with
          | none => rw [hr] at hs; simp at hs
          | some c => simp [stepOp, update_reason_of_call, hr]

/-- Across any op sequence, `service_type` is set iff it was already set or
some op is a successful `update_reason_of_call`. -/
theorem foldl_stepOp_isSome (db : List Worker) (ops : List AgentOp)
    (st : SessionState) :
    (ops.foldl (stepOp db) st).service_type.isSome =
      (st.service_type.isSome || ops.any opSetsCategory) := by
  induction ops generalizing st with
  | nil => simp
  | cons op ops ih =>
      rw [List.foldl_cons, List.any_cons, ih]
      cases hcat : opSetsCategory op with
      | false => rw [stepOp_service_type_of_not_sets db st op hcat]; simp
      | true =>
          have := stepOp_isSome_of_sets db st op hcat
          simp [this]

/-- `VoiceAgent.tools` offers the booking tool iff `self.service_type` is
set. -/
theorem mem_tools_booking (o : Option ServiceType) :
    ToolName.set_appointment_time ∈ VoiceAgent.tools o ↔ o.isSome := by
  cases o <;> simp [VoiceAgent.tools]

/-- C7: in every session (any op sequence from the fresh state over any
directory), the capability set offers the booking tool iff some
`update_reason_of_call` op with a valid category has occurred; in
particular it is excluded until the first success, and after a success it
stays offered under any further ops (contact updates, failed category
updates, bookings included). -/
theorem C7_booking_capability_monotone (db : List Worker)
    (ops : List AgentOp) :
    (ToolName.set_appointment_time ∈
        VoiceAgent.tools (runOps db ops).service_type ↔
      ops.any opSetsCategory = true) ∧
    (∀ more : List AgentOp, ops.any opSetsCategory = true →
      ToolName.set_appointment_time ∈
        VoiceAgent.tools (runOps db (ops ++ more)).service_type) := by
  have key : ∀ l : List AgentOp,
      ToolName.set_appointment_time ∈
          VoiceAgent.tools (runOps db l).service_type ↔
        l.any opSetsCategory = true := by
    intro l
    rw [mem_tools_booking]
    unfold runOps
    rw [show ((l.foldl (stepOp db) {}).service_type.isSome = true) ↔ _ from
      by rw [foldl_stepOp_isSome]]
    simp
  refine ⟨key ops, ?_⟩
  intro more h
  rw [key (ops ++ more), List.any_append, h]
  rfl

/-- Witness for C7: after a successful category update, the booking tool
stays offered through a later contact-info update and a failed category
update. -/
theorem C7_witness :
    ToolName.set_appointment_time ∈
      VoiceAgent.tools (runOps WorkersTable.getWorkers
        ([.updateReasonOfCall "Plumbing"] ++
          [.updateUserInfo (some "Ada") none none none,
           .updateReasonOfCall "Gardening"])).service_type :=
  (C7_booking_capability_monotone WorkersTable.getWorkers
      [.updateReasonOfCall "Plumbing"]).2
    [.updateUserInfo (some "Ada") none none none,
     .updateReasonOfCall "Gardening"] (by decide)

/-! ### C9 -/

/-- C9: a successful booking leaves the Workforce Directory unchanged — the
handler writes only the Customer Record, so after success both directory
queries return exactly what they returned before, and the booked slot (the
matched input) is still reported among `allAvailableSlots(category)`. -/
theorem C9_booking_leaves_directory_unchanged (c : ServiceType)
    (t msg : String) (w w' : WorldState)
    (h : set_appointment_time_world (build_set_appointment_tool w.workers c)
      t w = .ok (msg, w')) :
    w'.workers = w.workers ∧
    (∀ c' : ServiceType,
      WorkersTable.get_all_availabilities w'.workers c' =
        WorkersTable.get_all_availabilities w.workers c') ∧
    (∀ s : Slot,
      WorkersTable.get_next_free_worker w'.workers s =
        WorkersTable.get_next_free_worker w.workers s) ∧
    t ∈ (WorkersTable.get_all_availabilities w'.workers c).map slotString := by
  have hat : (build_set_appointment_tool w.workers c).available_times =
      WorkersTable.get_all_availabilities w.workers c := rfl
  unfold set_appointment_time_world at h
  cases hr : set_appointment_time (build_set_appointment_tool w.workers c)
      w.workers t w.userdata with
  | error e => rw [hr] at h; simp at h
  | ok v =>
      cases v with
      | mk m u' =>
          rw [hr] at h
          simp only [Except.ok.injEq, Prod.mk.injEq] at h
          have hworkers : w'.workers = w.workers := by
            rw [← h.2]
          refine ⟨hworkers, fun c' => by rw [hworkers],
            fun s => by rw [hworkers], ?_⟩
          rw [hworkers]
          unfold set_appointment_time at hr
          rw [hat] at hr
          cases hf : (WorkersTable.get_all_availabilities w.workers c).find?
              (fun slot => slotString slot == t) with
          | none => rw [hf] at hr; simp at hr
          | some slot =>
              refine List.mem_map.mpr
                ⟨slot, List.mem_of_find?_eq_some hf, ?_⟩
              simpa using List.find?_some hf

/-- Witness for C9: the concrete booking of 2025-08-21 16:00 over the seed
directory leaves the directory as it was and the slot still listed. -/
theorem C9_witness :
    (⟨WorkersTable.getWorkers,
        { appointment_time := some "2025-08-21 at 16:00" }⟩ :
      WorldState).workers = (⟨WorkersTable.getWorkers, {}⟩ :
      WorldState).workers ∧
    (∀ c' : ServiceType,
      WorkersTable.get_all_availabilities
          (⟨WorkersTable.getWorkers,
              { appointment_time := some "2025-08-21 at 16:00" }⟩ :
            WorldState).workers c' =
        WorkersTable.get_all_availabilities
          (⟨WorkersTable.getWorkers, {}⟩ : WorldState).workers c') ∧
    (∀ s : Slot,
      WorkersTable.get_next_free_worker
          (⟨WorkersTable.getWorkers,
              { appointment_time := some "2025-08-21 at 16:00" }⟩ :
            WorldState).workers s =
        WorkersTable.get_next_free_worker
          (⟨WorkersTable.getWorkers, {}⟩ : WorldState).workers s) ∧
    "2025-08-21 at 16:00" ∈
      (WorkersTable.get_all_availabilities
          (⟨WorkersTable.getWorkers,
              { appointment_time := some "2025-08-21 at 16:00" }⟩ :
            WorldState).workers .PLUMBING).map slotString :=
  C9_booking_leaves_directory_unchanged .PLUMBING "2025-08-21 at 16:00"
    ("Perfect! I've scheduled your Plumbing appointment for " ++
      "2025-08-21 at 16:00. Your assigned worker will be Masih.")
    ⟨WorkersTable.getWorkers, {}⟩
    ⟨WorkersTable.getWorkers,
      { appointment_time := some "2025-08-21 at 16:00" }⟩ (by decide)

end Agent
